import Mathlib

/-!
Shallow embedding of the sports-scores-agent repository (src/src/index.ts).
The source file contains two near-identical service variants separated by a
document marker; they are embedded below as namespaces V1 and V2.  Upstream
HTTP traffic is modelled by passing the network as a function from URL to an
HttpResponse value whose body is the already-parsed JSON payload; JS promise
rejection is modelled by Except.  Timestamps (fetchedAt, new Date()) are
omitted: they are nondeterministic clock reads that no verified property
mentions.
-/

set_option linter.unusedVariables false

namespace SportsScores

/-- JS fallback a or b for string-valued expressions: the JS expression
a || b falls through to b when a is undefined or the empty string (both
falsy in JS). -/
def jsOr (a b : Option String) : Option String :=
  match a with
  | some s => if s = "" then b else some s
  | none => b

/-- JS fallback a || d where the right operand is a concrete default that is
rendered as a string. -/
def jsOrD (a : Option String) (d : String) : String :=
  match a with
  | some s => if s = "" then d else s
  | none => d

/-- Concatenation of a list of lists, as produced by Array.prototype.flat with
depth 1 in the source. -/
def concatAll : List (List α) → List α
  | [] => []
  | l :: ls => l ++ concatAll ls

/-- An upstream HTTP response: the ok flag, the numeric status, and the parsed
JSON body. -/
structure HttpResponse (α : Type) where
  ok : Bool
  status : Nat
  body : α
deriving DecidableEq, Repr

/-- The upstream base URL shared by both variants. -/
def ESPN_BASE : String := "https://site.api.espn.com/apis/site/v2/sports"

/-- Promise.allSettled followed by keeping the fulfilled values in order, as
done by the multi-league handlers. -/
def settledValues : List (Except String α) → List α
  | [] => []
  | Except.ok v :: rest => v :: settledValues rest
  | Except.error _ :: rest => settledValues rest

namespace V1

/-- The eight league keys accepted by the first variant. -/
inductive LeagueKey where
  | nfl
  | nba
  | premierLeague
  | laLiga
  | mlb
  | nhl
  | collegeFootball
  | collegeBasketball
deriving DecidableEq, Repr

/-- A static league configuration: upstream path segment and display name. -/
structure LeagueConfig where
  path : String
  name : String
deriving DecidableEq, Repr

/-- The LEAGUES table of the first variant. -/
def LEAGUES : LeagueKey → LeagueConfig
  | .nfl => ⟨"football/nfl", "NFL"⟩
  | .nba => ⟨"basketball/nba", "NBA"⟩
  | .premierLeague => ⟨"soccer/eng.1", "Premier League"⟩
  | .laLiga => ⟨"soccer/esp.1", "La Liga"⟩
  | .mlb => ⟨"baseball/mlb", "MLB"⟩
  | .nhl => ⟨"hockey/nhl", "NHL"⟩
  | .collegeFootball => ⟨"football/college-football", "College Football"⟩
  | .collegeBasketball => ⟨"basketball/mens-college-basketball", "College Basketball"⟩

/-- Raw team object nested inside a competitor. -/
structure RawTeamInfo where
  displayName : Option String
  name : Option String
  abbreviation : Option String
  logo : Option String
deriving DecidableEq, Repr

/-- Raw competitor entry of a competition. -/
structure RawCompetitor where
  homeAway : Option String
  team : Option RawTeamInfo
  score : Option String
  winner : Option Bool
deriving DecidableEq, Repr

/-- Raw status type object. -/
structure RawStatusType where
  state : Option String
  detail : Option String
  description : Option String
deriving DecidableEq, Repr

/-- Raw status object of a competition. -/
structure RawStatus where
  type : Option RawStatusType
  displayClock : Option String
  period : Option Nat
deriving DecidableEq, Repr

/-- Raw venue object. -/
structure RawVenue where
  fullName : Option String
deriving DecidableEq, Repr

/-- Raw competition entry of an event. -/
structure RawCompetition where
  status : Option RawStatus
  competitors : Option (List RawCompetitor)
  venue : Option RawVenue
deriving DecidableEq, Repr

/-- Raw upstream event object, every nested piece optional. -/
structure RawEvent where
  id : Option String
  name : Option String
  shortName : Option String
  date : Option String
  competitions : Option (List RawCompetition)
deriving DecidableEq, Repr

/-- Normalized status of a game. -/
structure GameStatus where
  state : String
  detail : String
  clock : Option String
  period : Option Nat
deriving DecidableEq, Repr

/-- Normalized team side of a game. -/
structure GameTeam where
  name : Option String
  abbreviation : Option String
  score : Option String
  winner : Option Bool
  logo : Option String
deriving DecidableEq, Repr

/-- Normalized game record produced by parseGame. -/
structure Game where
  id : Option String
  name : Option String
  date : Option String
  status : GameStatus
  home : Option GameTeam
  away : Option GameTeam
  venue : Option String
deriving DecidableEq, Repr

/-- The home or away object built by parseGame when the competitor is
present. -/
def mkSide (c : RawCompetitor) : GameTeam :=
  { name := jsOr (c.team.bind RawTeamInfo.displayName) (c.team.bind RawTeamInfo.name)
    abbreviation := c.team.bind RawTeamInfo.abbreviation
    score := c.score
    winner := c.winner
    logo := c.team.bind RawTeamInfo.logo }

/-- Embedding of parseGame: optional chaining becomes Option.bind, the JS
fallback operator becomes jsOr. -/
def parseGame (event : RawEvent) : Game :=
  let comp := event.competitions.bind List.head?
  let status := comp.bind RawCompetition.status
  let teams := (comp.bind RawCompetition.competitors).getD []
  let home := teams.find? (fun t => t.homeAway == some "home")
  let away := teams.find? (fun t => t.homeAway == some "away")
  { id := event.id
    name := jsOr event.shortName event.name
    date := event.date
    status :=
      { state := jsOrD (status.bind RawStatus.type |>.bind RawStatusType.state) "unknown"
        detail := jsOrD (jsOr (status.bind RawStatus.type |>.bind RawStatusType.detail)
          (status.bind RawStatus.type |>.bind RawStatusType.description)) ""
        clock := status.bind RawStatus.displayClock
        period := status.bind RawStatus.period }
    home := home.map mkSide
    away := away.map mkSide
    venue := comp.bind RawCompetition.venue |>.bind RawVenue.fullName }

/-- Embedding of fetchJSON: throw when the response is not ok, otherwise
return the parsed body. -/
def fetchJSON (r : HttpResponse α) : Except String α :=
  if !r.ok then Except.error ("API error: " ++ toString r.status)
  else Except.ok r.body

/-- Raw day object of the scoreboard payload. -/
structure DayInfo where
  date : Option String
deriving DecidableEq, Repr

/-- Raw scoreboard payload of the first variant. -/
structure ScoreboardData where
  day : Option DayInfo
  events : Option (List RawEvent)
deriving DecidableEq, Repr

/-- Per-league result built by getLeagueScores (fetchedAt omitted). -/
structure LeagueScores where
  league : String
  leagueKey : LeagueKey
  day : Option String
  events : List Game
deriving DecidableEq, Repr

/-- The scoreboard URL requested for a league. -/
def leagueURL (k : LeagueKey) : String :=
  ESPN_BASE ++ "/" ++ (LEAGUES k).path ++ "/scoreboard"

/-- Embedding of getLeagueScores: fetch the scoreboard URL of the league and
map parseGame over the events. -/
def getLeagueScores (net : String → HttpResponse ScoreboardData) (k : LeagueKey) :
    Except String LeagueScores :=
  match fetchJSON (net (leagueURL k)) with
  | Except.error e => Except.error e
  | Except.ok data =>
    Except.ok
      { league := (LEAGUES k).name
        leagueKey := k
        day := data.day.bind DayInfo.date
        events := (data.events.getD []).map parseGame }

/-- Output of the dashboard entrypoint (fetchedAt omitted). -/
structure DashboardOutput where
  totalGames : Nat
  liveGames : Nat
  leagues : List LeagueScores
deriving DecidableEq, Repr

/-- Embedding of the dashboard handler: allSettled over the requested leagues,
keep the fulfilled per-league results, derive the two counts by reduce. -/
def dashboardHandler (net : String → HttpResponse ScoreboardData) (leagues : List LeagueKey) :
    DashboardOutput :=
  let dashboard := settledValues (leagues.map (getLeagueScores net))
  { totalGames := dashboard.foldl (fun sum d => sum + d.events.length) 0
    liveGames := dashboard.foldl
      (fun sum d => sum + (d.events.filter (fun e => e.status.state == "in")).length) 0
    leagues := dashboard }

/-- Embedding of the league entrypoint handler: await getLeagueScores and
return its data; there is no catch, so a rejection passes through. -/
def leagueHandler (net : String → HttpResponse ScoreboardData) (k : LeagueKey) :
    Except String LeagueScores :=
  match getLeagueScores net k with
  | Except.error e => Except.error e
  | Except.ok data => Except.ok data

/-- One sample entry of the free overview. -/
structure OverviewSample where
  name : Option String
  status : String
  score : String
deriving DecidableEq, Repr

/-- Per-league summary of the free overview. -/
structure OverviewLeagueSummary where
  league : String
  totalGames : Nat
  liveGames : Nat
  sample : List OverviewSample
deriving DecidableEq, Repr

/-- The sample record built for one game inside the overview handler. -/
def sampleEntry (e : Game) : OverviewSample :=
  { name := e.name
    status := e.status.detail
    score :=
      match e.home, e.away with
      | some h, some a => jsOrD a.score "0" ++ " - " ++ jsOrD h.score "0"
      | _, _ => "TBD" }

/-- The per-league summary built inside the overview handler, with the sample
capped by slice to at most two games. -/
def overviewLeagueSummary (d : LeagueScores) : OverviewLeagueSummary :=
  { league := d.league
    totalGames := d.events.length
    liveGames := (d.events.filter (fun e => e.status.state == "in")).length
    sample := (d.events.take 2).map sampleEntry }

/-- Embedding of the free overview handler: allSettled over the three major
leagues, keep the fulfilled summaries. -/
def overviewHandler (net : String → HttpResponse ScoreboardData) :
    List OverviewLeagueSummary :=
  settledValues
    (([LeagueKey.nfl, LeagueKey.nba, LeagueKey.premierLeague].map
      (fun k => (getLeagueScores net k).map overviewLeagueSummary)))

end V1

namespace V2

/-- The five sport keys accepted by the second variant. -/
inductive SportKey where
  | nba
  | nfl
  | mlb
  | nhl
  | mls
deriving DecidableEq, Repr

/-- Static sport configuration: display name and upstream path segment. -/
structure SportConfig where
  name : String
  path : String
deriving DecidableEq, Repr

/-- The SPORTS table of the second variant. -/
def SPORTS : SportKey → SportConfig
  | .nba => ⟨"NBA", "basketball/nba"⟩
  | .nfl => ⟨"NFL", "football/nfl"⟩
  | .mlb => ⟨"MLB", "baseball/mlb"⟩
  | .nhl => ⟨"NHL", "hockey/nhl"⟩
  | .mls => ⟨"MLS", "soccer/usa.1"⟩

/-- Raw team object of a competitor. -/
structure RawTeam2 where
  displayName : Option String
  abbreviation : Option String
deriving DecidableEq, Repr

/-- Raw competitor entry. -/
structure RawCompetitor2 where
  team : Option RawTeam2
  score : Option String
  homeAway : Option String
  winner : Option Bool
deriving DecidableEq, Repr

/-- Raw venue object. -/
structure RawVenue2 where
  fullName : Option String
deriving DecidableEq, Repr

/-- Raw competition entry of an event. -/
structure RawCompetition2 where
  competitors : Option (List RawCompetitor2)
  venue : Option RawVenue2
deriving DecidableEq, Repr

/-- Raw status type object of the second variant. -/
structure RawStatusType2 where
  description : Option String
deriving DecidableEq, Repr

/-- Raw status object of the second variant. -/
structure RawStatus2 where
  type : Option RawStatusType2
deriving DecidableEq, Repr

/-- Raw event object of the second variant. -/
structure RawEvent2 where
  id : Option String
  name : Option String
  date : Option String
  status : Option RawStatus2
  competitions : Option (List RawCompetition2)
deriving DecidableEq, Repr

/-- Raw scoreboard payload of the second variant. -/
structure ScoreboardData2 where
  events : Option (List RawEvent2)
deriving DecidableEq, Repr

/-- Normalized participant record built by parseScoreboard. -/
structure TeamOut where
  name : Option String
  abbreviation : Option String
  score : Option String
  homeAway : Option String
  winner : Option Bool
deriving DecidableEq, Repr

/-- Normalized game record built by parseScoreboard. -/
structure Game2 where
  id : Option String
  name : Option String
  date : Option String
  status : String
  venue : Option String
  teams : List TeamOut
  sport : String
deriving DecidableEq, Repr

/-- Embedding of parseScoreboard: map every raw event to a normalized game,
with optional chaining as Option.bind and the JS fallback as jsOrD. -/
def parseScoreboard (data : ScoreboardData2) (sport : String) : List Game2 :=
  (data.events.getD []).map fun event =>
    let competition := event.competitions.bind List.head?
    let competitors := (competition.bind RawCompetition2.competitors).getD []
    { id := event.id
      name := event.name
      date := event.date
      status := jsOrD (event.status.bind RawStatus2.type |>.bind RawStatusType2.description)
        "Unknown"
      venue := competition.bind RawCompetition2.venue |>.bind RawVenue2.fullName
      teams := competitors.map fun c =>
        { name := c.team.bind RawTeam2.displayName
          abbreviation := c.team.bind RawTeam2.abbreviation
          score := c.score
          homeAway := c.homeAway
          winner := c.winner }
      sport := sport }

/-- Raw logo object. -/
structure RawLogo where
  href : Option String
deriving DecidableEq, Repr

/-- Raw team detail object of the teams payload. -/
structure RawTeamDetail where
  id : Option String
  displayName : Option String
  abbreviation : Option String
  location : Option String
  logos : Option (List RawLogo)
deriving DecidableEq, Repr

/-- Raw entry wrapping one team. -/
structure RawTeamEntry where
  team : Option RawTeamDetail
deriving DecidableEq, Repr

/-- Raw league entry of the teams payload. -/
structure RawLeagueEntry where
  teams : Option (List RawTeamEntry)
deriving DecidableEq, Repr

/-- Raw sport entry of the teams payload. -/
structure RawSportEntry where
  leagues : Option (List RawLeagueEntry)
deriving DecidableEq, Repr

/-- Raw teams payload. -/
structure TeamsData where
  sports : Option (List RawSportEntry)
deriving DecidableEq, Repr

/-- Normalized team record built by parseTeams. -/
structure TeamInfoOut where
  id : Option String
  name : Option String
  abbreviation : Option String
  location : Option String
  logo : Option String
  sport : String
deriving DecidableEq, Repr

/-- Embedding of parseTeams. -/
def parseTeams (data : TeamsData) (sport : String) : List TeamInfoOut :=
  let league := ((data.sports.bind List.head?).bind RawSportEntry.leagues).bind List.head?
  ((league.bind RawLeagueEntry.teams).getD []).map fun t =>
    { id := t.team.bind RawTeamDetail.id
      name := t.team.bind RawTeamDetail.displayName
      abbreviation := t.team.bind RawTeamDetail.abbreviation
      location := t.team.bind RawTeamDetail.location
      logo := ((t.team.bind RawTeamDetail.logos).bind List.head?).bind RawLogo.href
      sport := sport }

/-- Core of fetchESPN applied to an already-obtained response: throw when the
response is not ok, otherwise return the parsed body. -/
def espnResult (r : HttpResponse α) : Except String α :=
  if !r.ok then Except.error ("ESPN API error: " ++ toString r.status)
  else Except.ok r.body

/-- Embedding of fetchESPN: request the path under the base URL. -/
def fetchESPN (net : String → HttpResponse α) (path : String) : Except String α :=
  espnResult (net (ESPN_BASE ++ "/" ++ path))

/-- Output of the scores entrypoint (fetchedAt omitted). -/
structure ScoresOutput where
  sport : String
  games : List Game2
  gameCount : Nat
deriving DecidableEq, Repr

/-- Embedding of the scores handler: fetch the scoreboard of the sport and
parse it; there is no catch, so a rejection passes through. -/
def scoresHandler (net : String → HttpResponse ScoreboardData2) (s : SportKey) :
    Except String ScoresOutput :=
  match fetchESPN net ((SPORTS s).path ++ "/scoreboard") with
  | Except.error e => Except.error e
  | Except.ok data =>
    let games := parseScoreboard data (SPORTS s).name
    Except.ok { sport := (SPORTS s).name, games := games, gameCount := games.length }

/-- Games contributed by one queried day of the schedule handler: the parsed
scoreboard of that day, or nothing when the fetch fails (per-day catch).  The
queried day is abstracted to a day number; the source builds a YYYYMMDD string
for day number now + i and passes it as a query parameter. -/
def dayGames (fetchDate : Nat → Except String ScoreboardData2) (s : SportKey) (d : Nat) :
    List Game2 :=
  match fetchDate d with
  | Except.ok data => parseScoreboard data (SPORTS s).name
  | Except.error _ => []

/-- Output of the schedule entrypoint (fetchedAt omitted). -/
structure ScheduleOutput where
  sport : String
  schedule : List Game2
  gameCount : Nat
  daysAhead : Nat
deriving DecidableEq, Repr

/-- Embedding of the schedule handler: query the scoreboard for each of the
next days, keep the per-day results in day order, and flatten.  No sorting is
performed anywhere in the handler. -/
def scheduleHandler (fetchDate : Nat → Except String ScoreboardData2) (s : SportKey)
    (now days : Nat) : ScheduleOutput :=
  let games := concatAll ((List.range days).map fun i => dayGames fetchDate s (now + i))
  { sport := (SPORTS s).name, schedule := games, gameCount := games.length, daysAhead := days }

/-- Raw web link object of a news article. -/
structure RawLinkWeb where
  href : Option String
deriving DecidableEq, Repr

/-- Raw links object of a news article. -/
structure RawLinks where
  web : Option RawLinkWeb
deriving DecidableEq, Repr

/-- Raw news article object. -/
structure RawArticle where
  headline : Option String
  description : Option String
  published : Option String
  links : Option RawLinks
deriving DecidableEq, Repr

/-- Raw news payload. -/
structure NewsData where
  articles : Option (List RawArticle)
deriving DecidableEq, Repr

/-- Normalized news article of the report. -/
structure ArticleOut where
  headline : Option String
  description : Option String
  published : Option String
  link : Option String
deriving DecidableEq, Repr

/-- Derived statistics block of the report. -/
structure ReportStats where
  totalTeams : Nat
  gamesInProgress : Nat
  gamesScheduled : Nat
  gamesCompleted : Nat
deriving DecidableEq, Repr

/-- Output of the report entrypoint (fetchedAt and dataSource omitted). -/
structure ReportOutput where
  sport : String
  liveGames : List Game2
  todaysGames : List Game2
  teams : List TeamInfoOut
  latestNews : List ArticleOut
  stats : ReportStats
deriving DecidableEq, Repr

/-- Embedding of the report handler.  The three upstream calls are joined by
Promise.all: a scoreboard or teams failure rejects the whole handler (the
scoreboard rejection wins when both fail, matching the array order), while the
news call carries its own catch that substitutes an empty article list. -/
def reportHandler (s : SportKey) (sbR : HttpResponse ScoreboardData2)
    (tmR : HttpResponse TeamsData) (nwR : HttpResponse NewsData) :
    Except String ReportOutput :=
  match espnResult sbR, espnResult tmR with
  | Except.error e, _ => Except.error e
  | Except.ok _, Except.error e => Except.error e
  | Except.ok scoreboard, Except.ok teams =>
    let news := match espnResult nwR with
      | Except.ok n => n
      | Except.error _ => { articles := some [] }
    let games := parseScoreboard scoreboard (SPORTS s).name
    let teamList := parseTeams teams (SPORTS s).name
    let articles := ((news.articles.getD []).take 5).map fun a =>
      { headline := a.headline
        description := a.description
        published := a.published
        link := (a.links.bind RawLinks.web).bind RawLinkWeb.href : ArticleOut }
    Except.ok
      { sport := (SPORTS s).name
        liveGames := games.filter (fun g => g.status == "In Progress")
        todaysGames := games
        teams := teamList.take 10
        latestNews := articles
        stats :=
          { totalTeams := teamList.length
            gamesInProgress := (games.filter (fun g => g.status == "In Progress")).length
            gamesScheduled := (games.filter (fun g => g.status == "Scheduled")).length
            gamesCompleted := (games.filter (fun g => g.status == "Final")).length } }

/-- Case-fold matcher: does the needle occur at the head of the haystack. -/
def leadMatch : List Char → List Char → Bool
  | [], _ => true
  | _ :: _, [] => false
  | a :: as, b :: bs => a == b && leadMatch as bs

/-- Does the needle occur as a contiguous run somewhere in the haystack. -/
def occursIn (needle : List Char) : List Char → Bool
  | [] => needle.isEmpty
  | c :: t => leadMatch needle (c :: t) || occursIn needle t

/-- Lower-case folding of a character sequence. -/
def lowerChars : List Char → List Char :=
  List.map Char.toLower

/-- Case-insensitive substring test on strings. -/
def containsCI (hay needle : String) : Bool :=
  occursIn (lowerChars needle.toList) (lowerChars hay.toList)

/-- Modelled from the spec: the repository source under src contains no search
entrypoint, only the spec describes one; a normalized event matches a query
when at least one participant name or abbreviation contains the query as a
case-insensitive substring. -/
def eventMatches (q : String) (e : Game2) : Bool :=
  e.teams.any fun t => containsCI (t.name.getD "") q || containsCI (t.abbreviation.getD "") q

/-- Modelled from the spec: the search operation keeps exactly the events that
match the query. -/
def searchEvents (q : String) (evs : List Game2) : List Game2 :=
  evs.filter (eventMatches q)

/-- Comparison of date strings used to state sortedness: lexicographic
comparison of the character sequences, absent dates compared as empty. -/
def chListLe : List Char → List Char → Bool
  | [], _ => true
  | _ :: _, [] => false
  | a :: as, b :: bs =>
    if a.toNat < b.toNat then true
    else if b.toNat < a.toNat then false
    else chListLe as bs

/-- Date order on normalized games. -/
def dateLe (a b : Game2) : Bool :=
  chListLe (a.date.getD "").toList (b.date.getD "").toList

/-- The date sequence of a game list is non-decreasing. -/
def datesNondecreasing : List Game2 → Bool
  | [] => true
  | [_] => true
  | a :: b :: t => dateLe a b && datesNondecreasing (b :: t)

end V2

/-- Parse one league string of the dashboard input enum. -/
def parseLeagueKey : String → Option V1.LeagueKey
  | "nfl" => some .nfl
  | "nba" => some .nba
  | "premier-league" => some .premierLeague
  | "la-liga" => some .laLiga
  | "mlb" => some .mlb
  | "nhl" => some .nhl
  | "college-football" => some .collegeFootball
  | "college-basketball" => some .collegeBasketball
  | _ => none

/-- Parse every element of the leagues array, failing on the first string that
is not a member of the enum. -/
def parseKeys : List String → Option (List V1.LeagueKey)
  | [] => some []
  | s :: t =>
    match parseLeagueKey s, parseKeys t with
    | some k, some ks => some (k :: ks)
    | _, _ => none

/-- Embedding of the dashboard input schema: an optional array of enum league
keys with minimum length 1 and maximum length 4, defaulting to the three major
leagues when the field is omitted. -/
def validateDashboardLeagues (input : Option (List String)) :
    Except String (List V1.LeagueKey) :=
  match input with
  | none => Except.ok [V1.LeagueKey.nfl, V1.LeagueKey.nba, V1.LeagueKey.premierLeague]
  | some l =>
    match parseKeys l with
    | none => Except.error "invalid enum value"
    | some ks =>
      if ks.length < 1 then Except.error "array too small"
      else if 4 < ks.length then Except.error "array too big"
      else Except.ok ks

/-! Helper lemmas shared by the claim theorems. -/

/-- Keeping the fulfilled results of a settled batch keeps exactly the values
of the inputs whose call succeeds. -/
theorem settled_eq {α β : Type} (g : α → Except String β) (p : α → Bool) (f : α → β) :
    ∀ l : List α,
      (∀ k ∈ l, if p k = true then g k = Except.ok (f k) else ∃ e, g k = Except.error e) →
      settledValues (l.map g) = (l.filter p).map f := by
  intro l
  induction l with
  | nil => intro _; rfl
  | cons a t ih =>
    intro h
    have ha := h a (List.mem_cons_self a t)
    have ht := ih (fun k hk => h k (List.mem_cons_of_mem a hk))
    by_cases hp : p a = true
    · rw [hp] at ha
      simp only [if_true] at ha
      simp [List.filter_cons, hp, List.map_cons, ha, settledValues, ht]
    · have hp2 : p a = false := by
        cases hpa : p a
        · rfl
        · exact absurd hpa hp
      rw [hp2] at ha
      simp only [Bool.false_eq_true, if_false] at ha
      obtain ⟨e, he⟩ := ha
      simp [List.filter_cons, hp2, he, settledValues, ht]

/-- Folding an accumulating sum equals the starting value plus the sum of the
mapped list. -/
theorem foldl_add_eq {α : Type} (f : α → Nat) :
    ∀ (l : List α) (n : Nat), l.foldl (fun sum d => sum + f d) n = n + (l.map f).sum := by
  intro l
  induction l with
  | nil => intro n; simp
  | cons a t ih =>
    intro n
    simp [List.foldl, ih, Nat.add_assoc]

/-- Membership in a concatenation of lists. -/
theorem mem_concatAll {α : Type} {a : α} :
    ∀ {ls : List (List α)}, a ∈ concatAll ls ↔ ∃ l ∈ ls, a ∈ l := by
  intro ls
  induction ls with
  | nil => simp [concatAll]
  | cons l t ih => simp [concatAll, List.mem_append, ih]

/-- Length of a filtered concatenation as a sum of per-list filtered
lengths. -/
theorem length_filter_concatAll {α : Type} (p : α → Bool) :
    ∀ ls : List (List α),
      ((concatAll ls).filter p).length = (ls.map (fun l => (l.filter p).length)).sum := by
  intro ls
  induction ls with
  | nil => rfl
  | cons l t ih => simp [concatAll, List.filter_append, ih]

/-- Every parsed leagues array has exactly the keys of its strings. -/
theorem parseKeys_isSome :
    ∀ l : List String,
      (∃ ks, parseKeys l = some ks) ↔ ∀ s ∈ l, (parseLeagueKey s).isSome = true := by
  intro l
  induction l with
  | nil => simp [parseKeys]
  | cons a t ih =>
    constructor
    · rintro ⟨ks, hks⟩ s hs
      rcases List.mem_cons.mp hs with rfl | hs2
      · cases hpa : parseLeagueKey s with
        | none => rw [parseKeys, hpa] at hks; cases hks
        | some k => simp
      · rcases hq : parseKeys t with _ | ks2
        · rw [parseKeys, hq] at hks
          cases hpa : parseLeagueKey a <;> rw [hpa] at hks <;> cases hks
        · exact ih.mp ⟨ks2, hq⟩ s hs2
    · intro h
      have ha := h a (List.mem_cons_self a t)
      obtain ⟨ks2, hks2⟩ := ih.mpr (fun s hs => h s (List.mem_cons_of_mem a hs))
      cases hpa : parseLeagueKey a with
      | none => rw [hpa] at ha; cases ha
      | some k => exact ⟨k :: ks2, by rw [parseKeys, hpa, hks2]⟩

/-- Parsing the leagues array preserves its length. -/
theorem parseKeys_length :
    ∀ (l : List String) (ks : List V1.LeagueKey), parseKeys l = some ks → ks.length = l.length := by
  intro l
  induction l with
  | nil => intro ks h; cases h; rfl
  | cons a t ih =>
    intro ks h
    cases hpa : parseLeagueKey a with
    | none => rw [parseKeys, hpa] at h; cases h
    | some k =>
      cases hq : parseKeys t with
      | none => rw [parseKeys, hpa, hq] at h; cases h
      | some ks2 =>
        rw [parseKeys, hpa, hq] at h
        cases h
        simp [ih ks2 hq]

/-! Claim theorems. -/

/-- C2: for every supported league variant, the normalization functions map an
upstream event whose optional parts (competitions, and with them venue,
scores, competitors, status detail) are absent to a normalized event without
failing, representing the missing fields by absence or a default. -/
theorem normalize_tolerates_missing_optionals :
    (∀ i n sn d : Option String,
      V1.parseGame ⟨i, n, sn, d, none⟩ =
        ⟨i, jsOr sn n, d, ⟨"unknown", "", none, none⟩, none, none, none⟩) ∧
    (∀ (i2 n2 d2 : Option String) (sport : String),
      V2.parseScoreboard ⟨some [⟨i2, n2, d2, none, none⟩]⟩ sport =
        [⟨i2, n2, d2, "Unknown", none, [], sport⟩]) := by
  exact ⟨fun i n sn d => rfl, fun i2 n2 d2 sport => rfl⟩

/-- C3: the per-league fetch operation rejects with an upstream error exactly
when the HTTP response is not ok, and otherwise returns the parsed body. -/
theorem fetch_error_iff_not_ok (α : Type) (r : HttpResponse α)
    (net : String → HttpResponse α) (path : String) :
    ((V1.fetchJSON r = Except.ok r.body) ↔ r.ok = true) ∧
    ((∃ e, V1.fetchJSON r = Except.error e) ↔ r.ok = false) ∧
    ((V2.fetchESPN net path = Except.ok (net (ESPN_BASE ++ "/" ++ path)).body) ↔
      (net (ESPN_BASE ++ "/" ++ path)).ok = true) ∧
    ((∃ e, V2.fetchESPN net path = Except.error e) ↔
      (net (ESPN_BASE ++ "/" ++ path)).ok = false) := by
  refine ⟨?_, ?_, ?_, ?_⟩
  · cases hr : r.ok <;> simp [V1.fetchJSON, hr]
  · cases hr : r.ok <;> simp [V1.fetchJSON, hr]
  · cases hr : (net (ESPN_BASE ++ "/" ++ path)).ok <;>
      simp [V2.fetchESPN, V2.espnResult, hr]
  · cases hr : (net (ESPN_BASE ++ "/" ++ path)).ok <;>
      simp [V2.fetchESPN, V2.espnResult, hr]

/-- C1: when one requested league of a dashboard call fails upstream and all
the others succeed, the dashboard output lists exactly the per-league results
of the remaining leagues, in order, and the call as a whole does not fail (the
handler is total by construction). -/
theorem dashboard_isolates_failed_league (net : String → HttpResponse V1.ScoreboardData)
    (leagues : List V1.LeagueKey) (bad : V1.LeagueKey) (e : String)
    (f : V1.LeagueKey → V1.LeagueScores)
    (hbad : V1.getLeagueScores net bad = Except.error e)
    (hgood : ∀ k ∈ leagues, k ≠ bad → V1.getLeagueScores net k = Except.ok (f k)) :
    (V1.dashboardHandler net leagues).leagues =
      (leagues.filter (fun k => k ≠ bad)).map f := by
  show settledValues (leagues.map (V1.getLeagueScores net)) = _
  apply settled_eq (V1.getLeagueScores net) (fun k => decide (k ≠ bad)) f leagues
  intro k hk
  by_cases hkb : k = bad
  · subst hkb
    simp [hbad]
  · simp only [hkb, decide_not, decide_eq_true_eq]
    simp [hkb, hgood k hk hkb]

/-- Scoreboard body with no events, used for the failing league. -/
def emptyBoard : V1.ScoreboardData := ⟨none, none⟩

/-- A raw event with the given status state and date. -/
def exRawEvent (st d : String) : V1.RawEvent :=
  ⟨none, some ("game " ++ d), none, some d,
    some [⟨some ⟨some ⟨some st, none, none⟩, none, none⟩, none, none⟩]⟩

/-- Scoreboard body carrying one in-progress and two scheduled events. -/
def exNflBoard : V1.ScoreboardData :=
  ⟨none, some [exRawEvent "in" "1", exRawEvent "pre" "2", exRawEvent "pre" "3"]⟩

/-- A network where the NBA scoreboard answers HTTP 500 and every other URL
answers the three-event board. -/
def exNet : String → HttpResponse V1.ScoreboardData := fun url =>
  if url = V1.leagueURL V1.LeagueKey.nba then ⟨false, 500, emptyBoard⟩
  else ⟨true, 200, exNflBoard⟩

/-- The per-league result the successful league produces on exNet. -/
def exNflScores : V1.LeagueScores :=
  ⟨"NFL", V1.LeagueKey.nfl, none,
    [V1.parseGame (exRawEvent "in" "1"), V1.parseGame (exRawEvent "pre" "2"),
      V1.parseGame (exRawEvent "pre" "3")]⟩

/-- Witness for C1: two mocked leagues, one returning three events and one an
HTTP 500; the dashboard returns exactly the three events of the successful
league and a zero contribution from the failed one. -/
theorem dashboard_isolates_failed_league_witness :
    (V1.dashboardHandler exNet [V1.LeagueKey.nfl, V1.LeagueKey.nba]).leagues =
        [exNflScores] ∧
    exNflScores.events.length = 3 ∧
    (V1.dashboardHandler exNet [V1.LeagueKey.nfl, V1.LeagueKey.nba]).totalGames = 3 := by
  refine ⟨?_, rfl, rfl⟩
  have h := dashboard_isolates_failed_league exNet [V1.LeagueKey.nfl, V1.LeagueKey.nba]
    V1.LeagueKey.nba "API error: 500" (fun _ => exNflScores) rfl ?_
  · exact h.trans rfl
  · intro k hk hne
    rcases List.mem_cons.mp hk with rfl | hk2
    · rfl
    · rcases List.mem_cons.mp hk2 with rfl | hk3
      · exact absurd rfl hne
      · cases hk3

/-- C4: a single-league entrypoint call propagates the upstream failure to the
caller: when the response for the requested league is not ok, the league
handler of the first variant and the scores handler of the second variant both
reject with the upstream error instead of returning a result. -/
theorem single_league_error_propagates
    (net1 : String → HttpResponse V1.ScoreboardData) (k : V1.LeagueKey)
    (net2 : String → HttpResponse V2.ScoreboardData2) (s : V2.SportKey)
    (h1 : (net1 (V1.leagueURL k)).ok = false)
    (h2 : (net2 (ESPN_BASE ++ "/" ++ ((V2.SPORTS s).path ++ "/scoreboard"))).ok = false) :
    V1.leagueHandler net1 k =
      Except.error ("API error: " ++ toString (net1 (V1.leagueURL k)).status) ∧
    V2.scoresHandler net2 s =
      Except.error ("ESPN API error: " ++
        toString (net2 (ESPN_BASE ++ "/" ++ ((V2.SPORTS s).path ++ "/scoreboard"))).status) := by
  constructor
  · simp [V1.leagueHandler, V1.getLeagueScores, V1.fetchJSON, h1]
  · simp [V2.scoresHandler, V2.fetchESPN, V2.espnResult, h2]

/-- A network that fails every request with HTTP 500 (first variant body). -/
def failNet1 : String → HttpResponse V1.ScoreboardData := fun _ => ⟨false, 500, ⟨none, none⟩⟩

/-- A network that fails every request with HTTP 500 (second variant body). -/
def failNet2 : String → HttpResponse V2.ScoreboardData2 := fun _ => ⟨false, 500, ⟨none⟩⟩

/-- Witness for C4: on a network answering HTTP 500, both single-league
handlers reject with the upstream error message. -/
theorem single_league_error_propagates_witness :
    V1.leagueHandler failNet1 V1.LeagueKey.nfl = Except.error "API error: 500" ∧
    V2.scoresHandler failNet2 V2.SportKey.nba = Except.error "ESPN API error: 500" := by
  have h := single_league_error_propagates failNet1 V1.LeagueKey.nfl failNet2 V2.SportKey.nba
    rfl rfl
  exact ⟨h.1.trans rfl, h.2.trans rfl⟩

/-- Appending two date-sorted game lists whose elements are cross-ordered
yields a date-sorted list. -/
theorem chain_append (l1 l2 : List V2.Game2)
    (h1 : V2.datesNondecreasing l1 = true) (h2 : V2.datesNondecreasing l2 = true)
    (hx : ∀ a ∈ l1, ∀ b ∈ l2, V2.dateLe a b = true) :
    V2.datesNondecreasing (l1 ++ l2) = true := by
  induction l1 with
  | nil => simpa using h2
  | cons a t ih =>
    cases t with
    | nil =>
      cases l2 with
      | nil => rfl
      | cons b t2 =>
        have hab := hx a (List.mem_cons_self a []) b (List.mem_cons_self b t2)
        simp only [List.cons_append, List.nil_append]
        simp [V2.datesNondecreasing, hab, h2]
    | cons b t2 =>
      rw [V2.datesNondecreasing] at h1
      have hab := Bool.and_elim_left h1
      have ht := Bool.and_elim_right h1
      have := ih ht (fun x hx2 y hy => hx x (List.mem_cons_of_mem a hx2) y hy)
      simp only [List.cons_append] at this ⊢
      simp [V2.datesNondecreasing, hab, this]

/-- Concatenating date-sorted game lists that are pairwise cross-ordered
yields a date-sorted list. -/
theorem chain_concatAll (ls : List (List V2.Game2))
    (h1 : ∀ l ∈ ls, V2.datesNondecreasing l = true)
    (hx : List.Pairwise (fun l1 l2 => ∀ a ∈ l1, ∀ b ∈ l2, V2.dateLe a b = true) ls) :
    V2.datesNondecreasing (concatAll ls) = true := by
  induction ls with
  | nil => rfl
  | cons l t ih =>
    rcases List.pairwise_cons.mp hx with ⟨hhead, htail⟩
    refine chain_append l (concatAll t) (h1 l (List.mem_cons_self l t))
      (ih (fun x hx2 => h1 x (List.mem_cons_of_mem l hx2)) htail) ?_
    intro a ha b hb
    obtain ⟨l2, hl2, hbl2⟩ := mem_concatAll.mp hb
    exact hhead l2 hl2 a ha b hbl2

/-- C5 (amended): the schedule handler performs no sort; it returns the
per-day results concatenated in ascending queried-day order, so the date
sequence of the output is non-decreasing provided every queried day
contributes a date-sorted list and days queried earlier only contribute dates
at most those of days queried later. -/
theorem schedule_concat_by_day_sorted (fetchDate : Nat → Except String V2.ScoreboardData2)
    (s : V2.SportKey) (now days : Nat)
    (hday : ∀ i ∈ List.range days,
      V2.datesNondecreasing (V2.dayGames fetchDate s (now + i)) = true)
    (hcross : ∀ j ∈ List.range days, ∀ i ∈ List.range j,
      ∀ g ∈ V2.dayGames fetchDate s (now + i), ∀ g2 ∈ V2.dayGames fetchDate s (now + j),
        V2.dateLe g g2 = true) :
    V2.datesNondecreasing (V2.scheduleHandler fetchDate s now days).schedule = true := by
  show V2.datesNondecreasing
    (concatAll ((List.range days).map fun i => V2.dayGames fetchDate s (now + i))) = true
  apply chain_concatAll
  · intro l hl
    obtain ⟨i, hi, rfl⟩ := List.mem_map.mp hl
    exact hday i hi
  · rw [List.pairwise_map]
    refine (List.pairwise_lt_range days).imp_of_mem ?_
    intro i j hi hj hij g hg g2 hg2
    exact hcross j hj i (List.mem_range.mpr hij) g hg g2 hg2

/-- A scoreboard body with one dateless-venue event per given date string. -/
def oneEventBoard (d : String) : V2.ScoreboardData2 :=
  ⟨some [⟨none, none, some d, none, none⟩]⟩

/-- A per-day fetch whose single day answers two events in descending date
order, as the upstream is free to do. -/
def cexFetchDate : Nat → Except String V2.ScoreboardData2 := fun _ =>
  Except.ok ⟨some [⟨none, none, some "20260102", none, none⟩,
    ⟨none, none, some "20260101", none, none⟩]⟩

/-- Counterexample for C5 as stated: the schedule handler returns the upstream
order unchanged, so one day answering events in descending date order already
makes the returned date sequence decrease. -/
theorem schedule_not_sorted_cex :
    V2.datesNondecreasing
      (V2.scheduleHandler cexFetchDate V2.SportKey.nba 0 1).schedule = false := by
  rfl

/-- A per-day fetch answering one event on day 0 and a later-dated event on
every other day. -/
def wFetchDate : Nat → Except String V2.ScoreboardData2 := fun n =>
  if n = 0 then Except.ok (oneEventBoard "20260101") else Except.ok (oneEventBoard "20260102")

/-- Witness for the amended C5: with each day date-sorted and aligned across
days, the two-day schedule output is date-sorted. -/
theorem schedule_concat_by_day_sorted_witness :
    V2.datesNondecreasing
      (V2.scheduleHandler wFetchDate V2.SportKey.nba 0 2).schedule = true := by
  exact schedule_concat_by_day_sorted wFetchDate V2.SportKey.nba 0 2 (by decide) (by decide)

/-- C6: every event returned by the search operation comes from the input list
and has at least one participant whose name or abbreviation contains the query
as a case-insensitive substring. -/
theorem search_returns_only_matching (q : String) (evs : List V2.Game2) (e : V2.Game2)
    (he : e ∈ V2.searchEvents q evs) :
    e ∈ evs ∧
    (e.teams.any fun t => V2.containsCI (t.name.getD "") q ||
      V2.containsCI (t.abbreviation.getD "") q) = true := by
  have h := List.mem_filter.mp he
  exact ⟨h.1, h.2⟩

/-- A participant record for the search witness. -/
def wTeamLAL : V2.TeamOut := ⟨some "Los Angeles Lakers", some "LAL", none, some "home", none⟩

/-- A normalized event for the search witness. -/
def wSearchGame : V2.Game2 := ⟨none, some "LAL vs BOS", none, "Scheduled", none, [wTeamLAL], "NBA"⟩

/-- Witness for C6: the query lAk matches the event through the participant
name Los Angeles Lakers, case-insensitively. -/
theorem search_returns_only_matching_witness :
    wSearchGame ∈ [wSearchGame] ∧
    (wSearchGame.teams.any fun t => V2.containsCI (t.name.getD "") "lAk" ||
      V2.containsCI (t.abbreviation.getD "") "lAk") = true :=
  search_returns_only_matching "lAk" [wSearchGame] wSearchGame (by decide)

/-- C7: in every successful report, the in-progress filter result is a subset
of the full game list, and it is disjoint from the completed (Final) filter
result over the same list. -/
theorem report_live_subset_disjoint (s : V2.SportKey)
    (sbR : HttpResponse V2.ScoreboardData2) (tmR : HttpResponse V2.TeamsData)
    (nwR : HttpResponse V2.NewsData) (rep : V2.ReportOutput)
    (h : V2.reportHandler s sbR tmR nwR = Except.ok rep) :
    rep.liveGames ⊆ rep.todaysGames ∧
    List.Disjoint rep.liveGames
      (rep.todaysGames.filter (fun g => g.status == "Final")) := by
  rcases hsb : V2.espnResult sbR with e | sc
  · simp [V2.reportHandler, hsb] at h
  · rcases htm : V2.espnResult tmR with e | tm
    · simp [V2.reportHandler, hsb, htm] at h
    · simp only [V2.reportHandler, hsb, htm, Except.ok.injEq] at h
      subst h
      constructor
      · intro g hg
        exact (List.mem_filter.mp hg).1
      · intro g hg hgf
        have hip := (List.mem_filter.mp hg).2
        have hfin := (List.mem_filter.mp hgf).2
        rw [beq_iff_eq] at hip hfin
        rw [hip] at hfin
        exact absurd hfin (by decide)

/-- Raw in-progress event for the report witnesses. -/
def wEventIP : V2.RawEvent2 :=
  ⟨none, some "A vs B", some "20260101", some ⟨some ⟨some "In Progress"⟩⟩, none⟩

/-- Raw completed event for the report witnesses. -/
def wEventFin : V2.RawEvent2 :=
  ⟨none, some "C vs D", some "20260102", some ⟨some ⟨some "Final"⟩⟩, none⟩

/-- Successful scoreboard response with one in-progress and one final game. -/
def wSbR : HttpResponse V2.ScoreboardData2 := ⟨true, 200, ⟨some [wEventIP, wEventFin]⟩⟩

/-- Successful teams response with an empty payload. -/
def wTmR : HttpResponse V2.TeamsData := ⟨true, 200, ⟨none⟩⟩

/-- Failing news response, exercising the per-call catch of the report. -/
def wNwR : HttpResponse V2.NewsData := ⟨false, 404, ⟨none⟩⟩

/-- The normalized in-progress game of the report witnesses. -/
def wGameIP : V2.Game2 := ⟨none, some "A vs B", some "20260101", "In Progress", none, [], "NBA"⟩

/-- The normalized final game of the report witnesses. -/
def wGameFin : V2.Game2 := ⟨none, some "C vs D", some "20260102", "Final", none, [], "NBA"⟩

/-- The report output the witness responses produce. -/
def wRep : V2.ReportOutput := ⟨"NBA", [wGameIP], [wGameIP, wGameFin], [], [], ⟨0, 1, 0, 1⟩⟩

/-- Witness for C7 on a concrete successful report. -/
theorem report_live_subset_disjoint_witness :
    wRep.liveGames ⊆ wRep.todaysGames ∧
    List.Disjoint wRep.liveGames
      (wRep.todaysGames.filter (fun g => g.status == "Final")) :=
  report_live_subset_disjoint V2.SportKey.nba wSbR wTmR wNwR wRep rfl

/-- C8: the capped result lists never exceed their caps: the overview sample
holds at most 2 events, the report team list at most 10 teams, and the report
news list at most 5 articles. -/
theorem result_caps_respected (d : V1.LeagueScores) (s : V2.SportKey)
    (sbR : HttpResponse V2.ScoreboardData2) (tmR : HttpResponse V2.TeamsData)
    (nwR : HttpResponse V2.NewsData) (rep : V2.ReportOutput)
    (h : V2.reportHandler s sbR tmR nwR = Except.ok rep) :
    (V1.overviewLeagueSummary d).sample.length ≤ 2 ∧
    rep.teams.length ≤ 10 ∧ rep.latestNews.length ≤ 5 := by
  have hover : (V1.overviewLeagueSummary d).sample.length ≤ 2 := by
    show ((d.events.take 2).map V1.sampleEntry).length ≤ 2
    rw [List.length_map, List.length_take]
    exact min_le_left _ _
  have hrep : rep.teams.length ≤ 10 ∧ rep.latestNews.length ≤ 5 := by
    rcases hsb : V2.espnResult sbR with e | sc
    · simp [V2.reportHandler, hsb] at h
    · rcases htm : V2.espnResult tmR with e | tm
      · simp [V2.reportHandler, hsb, htm] at h
      · simp only [V2.reportHandler, hsb, htm, Except.ok.injEq] at h
        subst h
        constructor
        · show ((V2.parseTeams tm (V2.SPORTS s).name).take 10).length ≤ 10
          rw [List.length_take]
          exact min_le_left _ _
        · show (List.map _ (List.take 5 _)).length ≤ 5
          rw [List.length_map, List.length_take]
          exact min_le_left _ _
  exact ⟨hover, hrep.1, hrep.2⟩

/-- Witness for C8 on concrete overview and report data. -/
theorem result_caps_respected_witness :
    (V1.overviewLeagueSummary exNflScores).sample.length ≤ 2 ∧
    wRep.teams.length ≤ 10 ∧ wRep.latestNews.length ≤ 5 :=
  result_caps_respected exNflScores V2.SportKey.nba wSbR wTmR wNwR wRep rfl

/-- C9: every derived aggregate equals the size of the collection it
summarizes: dashboard totalGames is the sum of the per-league event counts and
dashboard liveGames counts the returned in-progress events; the scores
gameCount is the length of the games list; the report status counts are the
lengths of the corresponding status filters. -/
theorem derived_counts_match (net : String → HttpResponse V1.ScoreboardData)
    (leagues : List V1.LeagueKey) (net2 : String → HttpResponse V2.ScoreboardData2)
    (s : V2.SportKey) (out : V2.ScoresOutput) (s2 : V2.SportKey)
    (sbR : HttpResponse V2.ScoreboardData2) (tmR : HttpResponse V2.TeamsData)
    (nwR : HttpResponse V2.NewsData) (rep : V2.ReportOutput)
    (hout : V2.scoresHandler net2 s = Except.ok out)
    (hrep : V2.reportHandler s2 sbR tmR nwR = Except.ok rep) :
    (V1.dashboardHandler net leagues).totalGames =
      ((V1.dashboardHandler net leagues).leagues.map (fun d => d.events.length)).sum ∧
    (V1.dashboardHandler net leagues).liveGames =
      ((concatAll ((V1.dashboardHandler net leagues).leagues.map (fun d => d.events))).filter
        (fun e => e.status.state == "in")).length ∧
    out.gameCount = out.games.length ∧
    rep.stats.gamesInProgress =
      (rep.todaysGames.filter (fun g => g.status == "In Progress")).length ∧
    rep.stats.gamesScheduled =
      (rep.todaysGames.filter (fun g => g.status == "Scheduled")).length ∧
    rep.stats.gamesCompleted =
      (rep.todaysGames.filter (fun g => g.status == "Final")).length := by
  refine ⟨?_, ?_, ?_, ?_⟩
  · show (settledValues (leagues.map (V1.getLeagueScores net))).foldl
      (fun sum d => sum + d.events.length) 0 = _
    rw [foldl_add_eq, Nat.zero_add]
    rfl
  · show (settledValues (leagues.map (V1.getLeagueScores net))).foldl
      (fun sum d => sum + (d.events.filter (fun e => e.status.state == "in")).length) 0 = _
    rw [foldl_add_eq, Nat.zero_add, length_filter_concatAll, List.map_map]
    rfl
  · rcases hfe : V2.fetchESPN net2 ((V2.SPORTS s).path ++ "/scoreboard") with e | data
    · simp [V2.scoresHandler, hfe] at hout
    · simp only [V2.scoresHandler, hfe, Except.ok.injEq] at hout
      subst hout
      rfl
  · rcases hsb : V2.espnResult sbR with e | sc
    · simp [V2.reportHandler, hsb] at hrep
    · rcases htm : V2.espnResult tmR with e | tm
      · simp [V2.reportHandler, hsb, htm] at hrep
      · simp only [V2.reportHandler, hsb, htm, Except.ok.injEq] at hrep
        subst hrep
        exact ⟨rfl, rfl, rfl⟩

/-- A network whose every response is the two-game scoreboard. -/
def wNet2 : String → HttpResponse V2.ScoreboardData2 := fun _ =>
  ⟨true, 200, ⟨some [wEventIP, wEventFin]⟩⟩

/-- The scores output the witness network produces. -/
def wScoresOut : V2.ScoresOutput := ⟨"NBA", [wGameIP, wGameFin], 2⟩

/-- Witness for C9 on concrete dashboard, scores and report data. -/
theorem derived_counts_match_witness :
    (V1.dashboardHandler exNet [V1.LeagueKey.nfl, V1.LeagueKey.nba]).totalGames = 3 ∧
    wScoresOut.gameCount = 2 ∧
    wRep.stats.gamesInProgress = 1 ∧ wRep.stats.gamesCompleted = 1 := by
  have h := derived_counts_match exNet [V1.LeagueKey.nfl, V1.LeagueKey.nba] wNet2
    V2.SportKey.nba wScoresOut V2.SportKey.nba wSbR wTmR wNwR wRep rfl rfl
  exact ⟨h.1.trans rfl, h.2.2.1.trans rfl, h.2.2.2.1.trans rfl, h.2.2.2.2.2.trans rfl⟩

/-- C10: the dashboard leagues input accepts exactly the arrays of 1 to 4
supported league keys, and an omitted field defaults to the three major
leagues. -/
theorem dashboard_input_validation :
    validateDashboardLeagues none =
      Except.ok [V1.LeagueKey.nfl, V1.LeagueKey.nba, V1.LeagueKey.premierLeague] ∧
    ∀ l : List String,
      (∃ ks, validateDashboardLeagues (some l) = Except.ok ks) ↔
        (1 ≤ l.length ∧ l.length ≤ 4 ∧ ∀ s ∈ l, (parseLeagueKey s).isSome = true) := by
  refine ⟨rfl, ?_⟩
  intro l
  constructor
  · rintro ⟨ks, hks⟩
    cases hpk : parseKeys l with
    | none => simp [validateDashboardLeagues, hpk] at hks
    | some ks2 =>
      have hlen := parseKeys_length l ks2 hpk
      have hall := (parseKeys_isSome l).mp ⟨ks2, hpk⟩
      simp only [validateDashboardLeagues, hpk] at hks
      by_cases ha : ks2.length < 1
      · rw [if_pos ha] at hks
        cases hks
      · rw [if_neg ha] at hks
        by_cases hb : 4 < ks2.length
        · rw [if_pos hb] at hks
          cases hks
        · exact ⟨by omega, by omega, hall⟩
  · rintro ⟨h1, h2, hall⟩
    obtain ⟨ks, hks⟩ := (parseKeys_isSome l).mpr hall
    have hlen := parseKeys_length l ks hks
    refine ⟨ks, ?_⟩
    simp only [validateDashboardLeagues, hks]
    rw [if_neg (by omega), if_neg (by omega)]

end SportsScores
